import Mathlib

/-!
Shallow embedding of `src/util.rs` of the rlua repository: the safety-bridging
core between Rust and a Lua virtual machine.  The Lua VM state is modelled as a
value stack (top of the stack at the head of the list), a garbage-collector
running flag, and a stack capacity bound used by `lua_checkstack`.  Rust
closures passed to the guards and trampolines are modelled as state
transformers; `catch_unwind` is modelled by letting such a closure report one
of three outcomes (normal return, typed error, panic payload).  Userdata with
a registry-held metatable are modelled by dedicated value constructors, which
bakes in the invariant (maintained by construction in the C code) that the
error / panic / destructed metatables are only ever installed by the core on
userdata holding the matching payload; raw-identity tag comparison
(`lua_rawequal` against the registry template) becomes constructor matching.
-/

namespace Rlua

/-- Metatable identity tags: the registry-held templates compared with
`lua_rawequal` by `is_wrapped_error` / `is_wrapped_panic`.  A script-made
metatable is `custom n` and is never identity-equal to the three held by the core. -/
inductive Tag where
  | errorTag
  | panicTag
  | destructedTag
  | custom (n : Nat)
  deriving DecidableEq, Repr

/-- The `Error` enum of the binding (`error.rs` is outside the excerpt; the
variants and their fields are as listed in the data model of the spec).  The
`CallbackError` cause is held behind an `Arc` in Rust; observably (variant and
message) it is the nested error, which is how it is modelled here. -/
inductive Error where
  | RuntimeError (message : String)
  | SyntaxError (message : String) (incomplete_input : Bool)
  | GarbageCollectorError (message : String)
  | StackError
  | CallbackError (traceback : String) (cause : Error)
  | CallbackDestructed
  deriving DecidableEq, Repr

/-- A Lua value as far as this core observes it.  `wrappedErrorUd e` is a
userdata whose metatable is the error metatable and whose payload is the
`WrappedError(e)`; `wrappedPanicUd p` likewise for `WrappedPanic(p)`, where
`p = none` means the exactly-once panic payload was already taken;
`foreignUd tag payload` is any other userdata (its optional movable payload
is an opaque `Nat`); `destructedUd` is a userdata whose metatable was swapped
to the destructed sentinel and whose payload was moved out. -/
inductive LuaValue where
  | nil
  | boolean (b : Bool)
  | number (n : Int)
  | str (s : String)
  | wrappedErrorUd (e : Error)
  | wrappedPanicUd (p : Option Nat)
  | foreignUd (tag : Option Nat) (payload : Option Nat)
  | destructedUd
  | other (n : Nat)
  deriving DecidableEq, Repr

/-- The metatable installed on a value, as seen by the identity checks. -/
def metatable_tag : LuaValue → Option Tag
  | LuaValue.wrappedErrorUd _ => some Tag.errorTag
  | LuaValue.wrappedPanicUd _ => some Tag.panicTag
  | LuaValue.destructedUd => some Tag.destructedTag
  | LuaValue.foreignUd (some n) _ => some (Tag.custom n)
  | _ => none

/-- The VM state this core touches: the value stack (top at the head), the
running flag of the collector (`lua_gc LUA_GCISRUNNING`), and the capacity bound
`lua_checkstack` enforces. -/
structure LuaState where
  stack : List LuaValue
  gcRunning : Bool
  maxStack : Nat
  deriving DecidableEq, Repr

namespace LuaState

/-- Number of values on the stack (`ffi::lua_gettop`). -/
def gettop (s : LuaState) : Nat := s.stack.length

/-- Push a value (`ffi::lua_push*`). -/
def push (s : LuaState) (v : LuaValue) : LuaState :=
  { s with stack := v :: s.stack }

/-- `ffi::lua_settop`: shrink the stack to `n` values, or pad with nil when
growing (the core only ever shrinks). -/
def settop (s : LuaState) (n : Nat) : LuaState :=
  if n ≤ s.stack.length then { s with stack := s.stack.drop (s.stack.length - n) }
  else { s with stack := List.replicate (n - s.stack.length) LuaValue.nil ++ s.stack }

/-- `ffi::lua_pop state 1` (`lua_settop` by a relative index). -/
def pop1 (s : LuaState) : LuaState := { s with stack := s.stack.drop 1 }

/-- The value at the top of the stack (index -1), when the stack is nonempty. -/
def top? (s : LuaState) : Option LuaValue := s.stack.head?

/-- The value at absolute index 1 (the bottom of the stack). -/
def at1? (s : LuaState) : Option LuaValue := s.stack.getLast?

end LuaState

/-- `ffi::lua_checkstack state n`: true when the stack can grow by `n` more
slots.  Failure is modelled by the capacity bound being exceeded. -/
def lua_checkstack (s : LuaState) (n : Nat) : Bool :=
  s.stack.length + n ≤ s.maxStack

/-- `ffi::lua_tostring` without metamethods: non-null only for strings and
numbers (the raw `lua_tolstring` conversion). -/
def lua_tostring? : LuaValue → Option String
  | LuaValue.str s => some s
  | LuaValue.number n => some (toString n)
  | _ => none

/-- Identity test against the registry-held error metatable
(`is_wrapped_error`, value level): non-null userdata whose metatable is
raw-identity-equal to the error template. -/
def is_wrapped_error (v : LuaValue) : Bool :=
  metatable_tag v = some Tag.errorTag

/-- Identity test against the registry-held panic metatable
(`is_wrapped_panic`, value level). -/
def is_wrapped_panic (v : LuaValue) : Bool :=
  metatable_tag v = some Tag.panicTag

/-- gc_guard: runs `f` with the collector stopped when it was running, and
restarts it afterwards; when the collector was not running, just runs `f`.
The wrapped `f` is a Rust closure that must not unwind, so it is modelled as
a total state transformer (a `Result`-returning closure is covered by
instantiating the result type). -/
def gc_guard {α : Type} (s : LuaState) (f : LuaState → α × LuaState) :
    α × LuaState :=
  if s.gcRunning then
    let (r, s1) := f { s with gcRunning := false }
    (r, { s1 with gcRunning := true })
  else
    f s

/-- push_wrapped_error: allocates the `WrappedError` userdata under `gc_guard`
and installs the error metatable (net effect: one wrapped-error value pushed).
Uses two stack spaces transiently and does not call lua_checkstack. -/
def push_wrapped_error (s : LuaState) (err : Error) : LuaState :=
  let (_, s1) := gc_guard s (fun st => ((), st.push (LuaValue.wrappedErrorUd err)))
  s1

/-- push_wrapped_panic: allocates the `WrappedPanic` userdata under `gc_guard`
and installs the panic metatable; the payload starts present (`some panic`). -/
def push_wrapped_panic (s : LuaState) (p : Nat) : LuaState :=
  let (_, s1) := gc_guard s (fun st => ((), st.push (LuaValue.wrappedPanicUd (some p))))
  s1

/-- pop_wrapped_error: when the top of the stack is a `WrappedError` (metatable
identity-equal to the error template), clone the inner error, pop the value and
return it; otherwise return none and leave the stack untouched. -/
def pop_wrapped_error (s : LuaState) : Option Error × LuaState :=
  match s.stack with
  | LuaValue.wrappedErrorUd e :: rest => (some e, { s with stack := rest })
  | _ => (none, s)

/-- Outcome of an operation that can trip a `lua_internal_assert!` /
`lua_internal_panic!` (which clears the stack and panics) or
`lua_internal_abort!` (process abort). -/
inductive GuardResult (α : Type) where
  | ok (r : α) (s : LuaState)
  | err (e : Error) (s : LuaState)
  | fatal (msg : String)
  deriving DecidableEq, Repr

/-- stack_guard: runs `op` and asserts the stack change is exactly `change`;
a mismatch (or an initial depth that `change` would pop below zero) is a fatal
internal assertion. -/
def stack_guard {α : Type} (s : LuaState) (change : Int)
    (op : LuaState → α × LuaState) : GuardResult α :=
  let expected : Int := (s.gettop : Int) + change
  if expected < 0 then GuardResult.fatal "too many stack values would be popped"
  else
    let (r, s1) := op s
    if (s1.gettop : Int) = expected then GuardResult.ok r s1
    else GuardResult.fatal "expected stack depth not met"

/-- stack_err_guard: runs the fallible `op` and enforces the declared stack
delta.  On Ok the depth must equal the expected depth (else fatal assert); on
Err the depth must be at least the expected depth (else fatal assert), and any
residue above it is trimmed with `lua_settop` before the error propagates. -/
def stack_err_guard {α : Type} (s : LuaState) (change : Int)
    (op : LuaState → Except Error α × LuaState) : GuardResult α :=
  let expected : Int := (s.gettop : Int) + change
  if expected < 0 then GuardResult.fatal "too many stack values would be popped"
  else
    let (res, s1) := op s
    let top : Int := s1.gettop
    match res with
    | Except.ok r =>
      if top = expected then GuardResult.ok r s1
      else GuardResult.fatal "expected stack depth not met"
    | Except.error e =>
      if top < expected then GuardResult.fatal "too many stack values popped"
      else if top > expected then GuardResult.err e (s1.settop expected.toNat)
      else GuardResult.err e s1

/-- Lua status codes, as in the C API headers of Lua 5.3 (the `ffi` module is
an external collaborator; these are the standard values). -/
def LUA_OK : Int := 0

def LUA_YIELD : Int := 1

def LUA_ERRRUN : Int := 2

def LUA_ERRSYNTAX : Int := 3

def LUA_ERRMEM : Int := 4

def LUA_ERRGCMM : Int := 5

def LUA_ERRERR : Int := 6

/-- Outcome of `pop_error`: a typed error handed back to Rust, a resumed panic
(`resume_unwind` after clearing the stack), a fatal internal panic, or a
process abort (`lua_internal_abort!`). -/
inductive PopErrorResult where
  | typed (e : Error) (s : LuaState)
  | panicResumed (p : Nat) (s : LuaState)
  | fatal (msg : String)
  | abort (msg : String)
  deriving DecidableEq, Repr

/-- pop_error: pops an error off the stack.  A `WrappedError` is returned as
the typed error; a `WrappedPanic` clears the stack and resumes the panic (a
second resumption is a fatal internal panic); any other value is stringified
(under `gc_guard`), popped, and interpreted through the Lua status code. -/
def pop_error (s : LuaState) (err_code : Int) : PopErrorResult :=
  if err_code = LUA_OK ∨ err_code = LUA_YIELD then
    PopErrorResult.fatal "pop_error called with non-error return code"
  else
    match pop_wrapped_error s with
    | (some e, s1) => PopErrorResult.typed e s1
    | (none, _) =>
      match s.top? with
      | some (LuaValue.wrappedPanicUd (some p)) =>
        PopErrorResult.panicResumed p (s.settop 0)
      | some (LuaValue.wrappedPanicUd none) =>
        PopErrorResult.fatal "panic was resumed twice"
      | _ =>
        let (err_string, s1) := gc_guard s (fun st =>
          (match st.top? >>= lua_tostring? with
           | some msg => msg
           | none => "<unprintable error>", st))
        let s2 := s1.pop1
        if err_code = LUA_ERRRUN then PopErrorResult.typed (Error.RuntimeError err_string) s2
        else if err_code = LUA_ERRSYNTAX then
          PopErrorResult.typed
            (Error.SyntaxError err_string (err_string.endsWith "<eof>")) s2
        else if err_code = LUA_ERRERR then
          PopErrorResult.typed (Error.RuntimeError err_string) s2
        else if err_code = LUA_ERRMEM then
          PopErrorResult.abort "impossible Lua allocation error, aborting!"
        else if err_code = LUA_ERRGCMM then
          PopErrorResult.typed (Error.GarbageCollectorError err_string) s2
        else PopErrorResult.fatal "unrecognized lua error code"

/-- Outcome of running a Rust closure under `catch_unwind`: a normal return,
a typed `Err`, or a caught native panic with its opaque payload. -/
inductive FOut (α : Type) where
  | ok (r : α)
  | err (e : Error)
  | panic (p : Nat)
  deriving DecidableEq, Repr

/-- Outcome of `callback_error`: a normal return, a `lua_error` raise (the
final state holds the raised value on top), or a process abort. -/
inductive CbResult (α : Type) where
  | ret (r : α) (s : LuaState)
  | raised (s : LuaState)
  | abort (msg : String)
  deriving DecidableEq, Repr

/-- callback_error: runs the closure under `catch_unwind`.  An `Err` clears
the stack, reserves 2 slots with `luaL_checkstack` (which itself raises a Lua
stack-overflow error on failure), pushes the wrapped error and raises it via
`lua_error`.  A caught panic clears the stack; if 2 slots cannot be reserved
the process aborts, otherwise the wrapped panic is pushed and raised. -/
def callback_error {α : Type} (s : LuaState)
    (f : LuaState → FOut α × LuaState) : CbResult α :=
  match f s with
  | (FOut.ok r, s1) => CbResult.ret r s1
  | (FOut.err e, s1) =>
    let s2 := s1.settop 0
    if lua_checkstack s2 2 = false then
      CbResult.raised (s2.push (LuaValue.str "stack overflow"))
    else
      CbResult.raised (push_wrapped_error s2 e)
  | (FOut.panic p, s1) =>
    let s2 := s1.settop 0
    if lua_checkstack s2 2 = false then
      CbResult.abort "not enough stack space to propagate panic"
    else
      CbResult.raised (push_wrapped_panic s2 p)

/-- Outcome of `rust_callback_error`: the normal return value, the
`RCALL_STACK_ERR` fast-path code, the `RCALL_ERR` code (wrapped failure left
on the stack), or a process abort.  The two `RCALL` codes of the `ffi` module
are modelled as distinct constructors. -/
inductive RCallResult (α : Type) where
  | ret (r : α) (s : LuaState)
  | rcallStackErr (s : LuaState)
  | rcallErr (s : LuaState)
  | abort (msg : String)
  deriving DecidableEq, Repr

/-- rust_callback_error: the Rust-function-protocol trampoline.  An
`Err(StackError)` returns the `RCALL_STACK_ERR` code directly (no stack reset,
nothing pushed).  Any other `Err` clears the stack and, when 2 slots are
available, pushes the wrapped error and returns `RCALL_ERR`; when they are
not, returns `RCALL_STACK_ERR` (the error is dropped).  A caught panic clears
the stack and pushes the wrapped panic with `RCALL_ERR`; if 2 slots are
unavailable for a panic, the process aborts. -/
def rust_callback_error {α : Type} (s : LuaState)
    (f : LuaState → FOut α × LuaState) : RCallResult α :=
  match f s with
  | (FOut.ok r, s1) => RCallResult.ret r s1
  | (FOut.err Error.StackError, s1) => RCallResult.rcallStackErr s1
  | (FOut.err e, s1) =>
    let s2 := s1.settop 0
    if lua_checkstack s2 2 = false then
      RCallResult.rcallStackErr s2
    else
      RCallResult.rcallErr (push_wrapped_error s2 e)
  | (FOut.panic p, s1) =>
    let s2 := s1.settop 0
    if lua_checkstack s2 2 = false then
      RCallResult.abort "not enough stack space to throw rust panic"
    else
      RCallResult.rcallErr (push_wrapped_panic s2 p)

/-- Modelled from the spec: the textual traceback generator of the VM
(`ffi::luaL_traceback`, an external collaborator outside the excerpt), which
produces a traceback string, prefixed by the given message when one is
supplied. -/
def luaL_traceback_text (msg : Option String) : String :=
  match msg with
  | some m => m ++ "\nstack traceback:"
  | none => "stack traceback:"

/-- error_traceback: the message handler installed around callback-raising
calls.  With fewer than 2 reservable slots it does nothing.  A `WrappedError`
at index 1 is popped and re-wrapped as `CallbackError` with a captured
traceback (a placeholder string when 11 slots cannot be reserved); a
`WrappedPanic` passes through untouched; any other value is replaced by a
traceback string prefixed with its own textual form (when 11 slots are
available).  Returns `none` only on the impossible `.unwrap()` panic. -/
def error_traceback (s : LuaState) : Option LuaState :=
  if lua_checkstack s 2 = false then some s
  else
    match s.at1? with
    | none => some s
    | some v =>
      if is_wrapped_error v then
        let traceback :=
          if lua_checkstack s 11 = true then
            let (tb, _) := gc_guard s (fun st => (luaL_traceback_text none, st))
            tb
          else "not enough stack space for traceback"
        match pop_wrapped_error s with
        | (some e, s1) =>
          some (push_wrapped_error s1 (Error.CallbackError traceback e))
        | (none, _) => none
      else if is_wrapped_panic v = false then
        if lua_checkstack s 11 = true then
          let (_, s2) := gc_guard s (fun st =>
            let msg :=
              match lua_tostring? v with
              | some m => m
              | none => "<unprintable lua error>"
            let st1 := st.push (LuaValue.str (luaL_traceback_text (some msg)))
            let st2 : LuaState :=
              match st1.stack with
              | a :: _ :: rest => { st1 with stack := a :: rest }
              | _ => st1
            ((), st2))
          some s2
        else some s
      else some s

/-- take_userdata: on a userdata at the top of the stack, installs the
destructed sentinel metatable over its original one, pops the handle, and
moves the payload out (the `ptr::read`).  Returns the moved payload together
with the value the heap object becomes (the now-inert destructed handle) and
the popped state; `none` models the fatal null-userdata assertion. -/
def take_userdata (s : LuaState) : Option (Nat × LuaValue × LuaState) :=
  match s.stack with
  | LuaValue.foreignUd _ (some p) :: rest =>
    some (p, LuaValue.destructedUd, { s with stack := rest })
  | _ => none

/-- Metamethod names the destructed sentinel metatable intercepts, in the
order `init_error_metatables` installs them (arithmetic, bitwise, concat,
length, comparison, index, newindex, call, tostring, pairs and ipairs). -/
def destructed_metamethods : List String :=
  ["__add", "__sub", "__mul", "__div", "__mod", "__pow", "__unm", "__idiv",
   "__band", "__bor", "__bxor", "__bnot", "__shl", "__shr", "__concat",
   "__len", "__eq", "__lt", "__le", "__index", "__newindex", "__call",
   "__tostring", "__pairs", "__ipairs"]

/-- destructed_error: the single handler `init_error_metatables` installs in
every intercepted slot of the destructed sentinel metatable; it always fails
with `CallbackDestructed` through `rust_callback_error`. -/
def destructed_error (s : LuaState) : RCallResult Int :=
  rust_callback_error s (fun st => (FOut.err Error.CallbackDestructed, st))

/-- Lookup in the destructed sentinel metatable built by
`init_error_metatables`: every name of `destructed_metamethods` maps to the
one shared `destructed_error` handler; nothing else is present (in
particular no `__gc`). -/
def destructed_metatable (m : String) : Option (LuaState → RCallResult Int) :=
  if m ∈ destructed_metamethods then some destructed_error else none

/-- Capability dispatch on a destructed handle: the VM resolves metamethod
`m` through the sentinel metatable installed by `take_userdata` and invokes
the handler on the current state.  The handle carries no payload (it was
moved out), so the dispatch cannot depend on the original payload. -/
def invoke_on_destructed (m : String) (s : LuaState) : Option (RCallResult Int) :=
  match destructed_metatable m with
  | some h => some (h s)
  | none => none

/-- Outcome of one of the safe protected-call C functions: a normal return of
`n` top stack values, or a `lua_error` raise (the raised value is on top of
the stack of the final state). -/
inductive CFunResult where
  | ret (nresults : Nat) (s : LuaState)
  | raised (s : LuaState)
  deriving DecidableEq, Repr

/-- Modelled from the spec: the outcome of the protected-call primitive of the VM
(`ffi::lua_pcall`, an external collaborator), which consumes the called value
and its arguments and either yields the results of the call (bottom-to-top order)
or an error value after trapping a non-local error transfer. -/
inductive PCallOut where
  | ok (results : List LuaValue)
  | err (errval : LuaValue)
  deriving DecidableEq, Repr

/-- safe_pcall: reserves 2 slots (`luaL_checkstack`, which raises on
failure), errors when called with no arguments, then runs the protected call
over the whole stack.  On failure, a wrapped panic is re-raised immediately
via `lua_error`; any other error value is converted to the script-visible
pair false-then-error (2 return values).  On success, true is inserted at the
bottom before the results. -/
def safe_pcall (s : LuaState) (pc : PCallOut) : CFunResult :=
  if lua_checkstack s 2 = false then
    CFunResult.raised (s.push (LuaValue.str "stack overflow"))
  else if s.gettop = 0 then
    CFunResult.raised (s.push (LuaValue.str "not enough arguments to pcall"))
  else
    match pc with
    | PCallOut.err errval =>
      let s1 : LuaState := { s with stack := [errval] }
      if is_wrapped_panic errval then CFunResult.raised s1
      else
        CFunResult.ret 2
          { s1 with stack := [errval, LuaValue.boolean false] }
    | PCallOut.ok results =>
      let s1 : LuaState :=
        { s with stack := results.reverse ++ [LuaValue.boolean true] }
      CFunResult.ret s1.gettop s1

/-- xpcall_msgh: the message handler `safe_xpcall` installs around the user
handler (held as an upvalue, modelled as a function from the full
argument stack, bottom-to-top, to its results).  It reserves 2 slots, then:
when the value on top is a wrapped panic it returns immediately with the
stack untouched (the user handler is not invoked); otherwise it calls the
user handler on the whole stack and returns its results. -/
def xpcall_msgh (handler : List LuaValue → List LuaValue) (s : LuaState) :
    CFunResult :=
  if lua_checkstack s 2 = false then
    CFunResult.raised (s.push (LuaValue.str "stack overflow"))
  else
    match s.top? with
    | some v =>
      if is_wrapped_panic v then CFunResult.ret 1 s
      else
        let results := handler s.stack.reverse
        CFunResult.ret results.length { s with stack := results.reverse }
    | none =>
      let results := handler s.stack.reverse
      CFunResult.ret results.length { s with stack := results.reverse }

/-- safe_xpcall: reserves 2 slots, errors when called with fewer than 2
arguments, installs the `xpcall_msgh` closure over the user handler and runs
the protected call with it as message handler.  On failure the error value on
top (already transformed by the message-handler step inside the VM) is
re-raised via `lua_error` when it is a wrapped panic, and otherwise converted
to the script-visible pair false-then-error; on success, true is inserted at
index 2 above the retained handler slot. -/
def safe_xpcall (s : LuaState) (pc : PCallOut) : CFunResult :=
  if lua_checkstack s 2 = false then
    CFunResult.raised (s.push (LuaValue.str "stack overflow"))
  else if s.gettop < 2 then
    CFunResult.raised (s.push (LuaValue.str "not enough arguments to xpcall"))
  else
    let msgh := LuaValue.other 0
    match pc with
    | PCallOut.err errval =>
      let s1 : LuaState := { s with stack := [errval, msgh] }
      if is_wrapped_panic errval then CFunResult.raised s1
      else
        CFunResult.ret 2
          { s1 with stack := [errval, LuaValue.boolean false, msgh] }
    | PCallOut.ok results =>
      let s1 : LuaState :=
        { s with stack := results.reverse ++ [LuaValue.boolean true, msgh] }
      CFunResult.ret (s1.gettop - 1) s1

/-- Sample fallible operation used to witness the stack guard theorem. -/
def sampleOpOk : LuaState → Except Error Nat × LuaState :=
  fun st => (Except.ok 0, st.push LuaValue.nil)

/-- Sample wrapped closure used to witness the gc_guard theorem. -/
def sampleF : LuaState → Nat × LuaState := fun st => (3, st)

/-- Sample panicking closure used to witness the trampoline theorems. -/
def sampleFPanic : LuaState → FOut Int × LuaState :=
  fun st => (FOut.panic 5, st)

/-- Sample typed-error closure used to witness the trampoline theorems. -/
def sampleFErr : LuaState → FOut Int × LuaState :=
  fun st => (FOut.err (Error.RuntimeError "boom"), st)

/-- Sample StackError closure used to witness the fast-path theorem. -/
def sampleFStackErr : LuaState → FOut Int × LuaState :=
  fun st => (FOut.err Error.StackError, st)

theorem LuaState.gettop_settop (s : LuaState) (n : Nat) :
    (s.settop n).gettop = n := by
  unfold LuaState.settop LuaState.gettop
  by_cases h : n ≤ s.stack.length
  · simp [h]
    omega
  · simp [h]
    omega

theorem LuaState.stack_settop_zero (s : LuaState) : (s.settop 0).stack = [] := by
  simp [LuaState.settop]

/-- C2: for every operation run under stack_err_guard with declared delta
`change` on a stack of initial depth D with D + change ≥ 0: an Ok result
leaves depth exactly D + change (a mismatching post-operation depth is a
fatal internal assertion); an Err result leaves depth exactly D + change
after the guard trims the residue, and a post-operation depth below
D + change is a fatal internal assertion. -/
theorem stack_err_guard_balances {α : Type} (s : LuaState) (change : Int)
    (op : LuaState → Except Error α × LuaState)
    (hD : 0 ≤ (s.gettop : Int) + change) :
    (∀ r s1, stack_err_guard s change op = GuardResult.ok r s1 →
      (s1.gettop : Int) = (s.gettop : Int) + change) ∧
    (∀ e s1, stack_err_guard s change op = GuardResult.err e s1 →
      (s1.gettop : Int) = (s.gettop : Int) + change) ∧
    (∀ r s1, op s = (Except.ok r, s1) →
      (s1.gettop : Int) ≠ (s.gettop : Int) + change →
      stack_err_guard s change op = GuardResult.fatal "expected stack depth not met") ∧
    (∀ e s1, op s = (Except.error e, s1) →
      (s1.gettop : Int) < (s.gettop : Int) + change →
      stack_err_guard s change op = GuardResult.fatal "too many stack values popped") := by
  have hnot : ¬((s.gettop : Int) + change < 0) := by omega
  rcases hop : op s with ⟨res, s1⟩
  cases res with
  | ok r2 =>
    have heval : stack_err_guard s change op =
        if (s1.gettop : Int) = (s.gettop : Int) + change then GuardResult.ok r2 s1
        else GuardResult.fatal "expected stack depth not met" := by
      unfold stack_err_guard
      simp only [hop, hnot, if_false]
    refine ⟨?_, ?_, ?_, ?_⟩
    · intro r s2 hres
      rw [heval] at hres
      by_cases htop : (s1.gettop : Int) = (s.gettop : Int) + change
      · rw [if_pos htop] at hres
        cases hres
        exact htop
      · rw [if_neg htop] at hres
        exact absurd hres (by simp)
    · intro e s2 hres
      rw [heval] at hres
      by_cases htop : (s1.gettop : Int) = (s.gettop : Int) + change
      · rw [if_pos htop] at hres
        exact absurd hres (by simp)
      · rw [if_neg htop] at hres
        exact absurd hres (by simp)
    · intro r s2 hopeq hne
      have h2 : s1 = s2 := congrArg Prod.snd hopeq
      subst h2
      rw [heval, if_neg hne]
    · intro e s2 hopeq hlt
      have h1 : Except.ok r2 = Except.error e := congrArg Prod.fst hopeq
      exact absurd h1 (by simp)
  | error e2 =>
    have heval : stack_err_guard s change op =
        if (s1.gettop : Int) < (s.gettop : Int) + change then
          GuardResult.fatal "too many stack values popped"
        else if (s1.gettop : Int) > (s.gettop : Int) + change then
          GuardResult.err e2 (s1.settop ((s.gettop : Int) + change).toNat)
        else GuardResult.err e2 s1 := by
      unfold stack_err_guard
      simp only [hop, hnot, if_false]
    refine ⟨?_, ?_, ?_, ?_⟩
    · intro r s2 hres
      rw [heval] at hres
      by_cases hlt : (s1.gettop : Int) < (s.gettop : Int) + change
      · rw [if_pos hlt] at hres
        exact absurd hres (by simp)
      · rw [if_neg hlt] at hres
        by_cases hgt : (s1.gettop : Int) > (s.gettop : Int) + change
        · rw [if_pos hgt] at hres
          exact absurd hres (by simp)
        · rw [if_neg hgt] at hres
          exact absurd hres (by simp)
    · intro e s2 hres
      rw [heval] at hres
      by_cases hlt : (s1.gettop : Int) < (s.gettop : Int) + change
      · rw [if_pos hlt] at hres
        exact absurd hres (by simp)
      · rw [if_neg hlt] at hres
        by_cases hgt : (s1.gettop : Int) > (s.gettop : Int) + change
        · rw [if_pos hgt] at hres
          cases hres
          rw [LuaState.gettop_settop]
          omega
        · rw [if_neg hgt] at hres
          cases hres
          omega
    · intro r s2 hopeq hne
      have h1 : Except.error e2 = Except.ok r := congrArg Prod.fst hopeq
      exact absurd h1 (by simp)
    · intro e s2 hopeq hlt
      have h2 : s1 = s2 := congrArg Prod.snd hopeq
      subst h2
      rw [heval, if_pos hlt]

/-- Witness for the stack-guard balance theorem at a concrete instance. -/
theorem stack_err_guard_balances_witness :
    ((((⟨[], true, 10⟩ : LuaState).gettop : Int) + 1 ≥ 0) ∧
      ((((⟨[LuaValue.nil], true, 10⟩ : LuaState)).gettop : Int) =
        ((⟨[], true, 10⟩ : LuaState).gettop : Int) + 1)) := by
  refine ⟨by decide, ?_⟩
  exact (stack_err_guard_balances (⟨[], true, 10⟩ : LuaState) 1 sampleOpOk
    (by decide)).1 0 ⟨[LuaValue.nil], true, 10⟩ rfl

/-- C3: pushing any error with push_wrapped_error and popping with
pop_wrapped_error returns Some of an error equal to it (same variant and
message), restores the original state exactly (so the pair leaves the stack
depth unchanged net), and the push itself grows the stack by one. -/
theorem push_pop_wrapped_error_roundtrip (s : LuaState) (e : Error) :
    pop_wrapped_error (push_wrapped_error s e) = (some e, s) ∧
    (push_wrapped_error s e).gettop = s.gettop + 1 ∧
    (pop_wrapped_error (push_wrapped_error s e)).2.gettop = s.gettop := by
  have hpush : push_wrapped_error s e =
      { s with stack := LuaValue.wrappedErrorUd e :: s.stack } := by
    unfold push_wrapped_error gc_guard
    rcases s with ⟨st, gc, mx⟩
    cases gc <;> simp [LuaState.push]
  refine ⟨?_, ?_, ?_⟩
  · rw [hpush]
    unfold pop_wrapped_error
    rfl
  · rw [hpush]
    rfl
  · rw [hpush]
    unfold pop_wrapped_error
    rfl

/-- C7: for every operation wrapped by gc_guard, if the collector was running
before the guard then it is running again after the guard (whatever the
wrapped operation did to it), the wrapped operation is the one whose result
is returned, and if the collector was not running the guard is exactly the
wrapped operation, leaving the stopped state alone. -/
theorem gc_guard_restores {α : Type} (s : LuaState)
    (f : LuaState → α × LuaState) :
    (s.gcRunning = true → ((gc_guard s f).2.gcRunning = true ∧
      (gc_guard s f).1 = (f { s with gcRunning := false }).1)) ∧
    (s.gcRunning = false → gc_guard s f = f s) := by
  constructor
  · intro h
    unfold gc_guard
    rw [h]
    simp
  · intro h
    unfold gc_guard
    rw [h]
    simp

/-- Witness for the gc_guard theorem at concrete states and operation. -/
theorem gc_guard_restores_witness :
    ((gc_guard ⟨[], true, 10⟩ sampleF).2.gcRunning = true ∧
      (gc_guard ⟨[], true, 10⟩ sampleF).1 =
        (sampleF ⟨[], false, 10⟩).1) ∧
    gc_guard ⟨[], false, 10⟩ sampleF = sampleF ⟨[], false, 10⟩ :=
  ⟨(gc_guard_restores ⟨[], true, 10⟩ sampleF).1 rfl,
   (gc_guard_restores ⟨[], false, 10⟩ sampleF).2 rfl⟩

/-- C4: with a wrapped panic on top of the stack, pop_wrapped_error returns
none and leaves the state untouched, and pop_error does not return a typed
error: it clears the stack and resumes the panic as a host unwind.
Conversely, pop_wrapped_error pops and returns the inner error exactly when
the metatable tag of the top value is identity-equal to the error tag. -/
theorem panic_opacity (p : Nat) (rest : List LuaValue) (s : LuaState)
    (code : Int)
    (hs : s.stack = LuaValue.wrappedPanicUd (some p) :: rest)
    (hc : ¬(code = LUA_OK ∨ code = LUA_YIELD)) :
    pop_wrapped_error s = (none, s) ∧
    pop_error s code = PopErrorResult.panicResumed p (s.settop 0) ∧
    (∀ (t : LuaState) (v : LuaValue) (r : List LuaValue), t.stack = v :: r →
      ((∃ e, v = LuaValue.wrappedErrorUd e ∧
          metatable_tag v = some Tag.errorTag ∧
          pop_wrapped_error t = (some e, { t with stack := r })) ∨
        (metatable_tag v ≠ some Tag.errorTag ∧
          pop_wrapped_error t = (none, t)))) := by
  have hpop : pop_wrapped_error s = (none, s) := by
    unfold pop_wrapped_error
    rw [hs]
  refine ⟨hpop, ?_, ?_⟩
  · unfold pop_error
    rw [if_neg hc, hpop]
    have htop : s.top? = some (LuaValue.wrappedPanicUd (some p)) := by
      unfold LuaState.top?
      rw [hs]
      rfl
    rw [htop]
  · intro t v r ht
    cases v with
    | wrappedErrorUd e =>
      left
      refine ⟨e, rfl, rfl, ?_⟩
      unfold pop_wrapped_error
      rw [ht]
    | nil =>
      right
      refine ⟨by simp [metatable_tag], ?_⟩
      unfold pop_wrapped_error
      rw [ht]
    | boolean b =>
      right
      refine ⟨by simp [metatable_tag], ?_⟩
      unfold pop_wrapped_error
      rw [ht]
    | number n =>
      right
      refine ⟨by simp [metatable_tag], ?_⟩
      unfold pop_wrapped_error
      rw [ht]
    | str msg =>
      right
      refine ⟨by simp [metatable_tag], ?_⟩
      unfold pop_wrapped_error
      rw [ht]
    | wrappedPanicUd q =>
      right
      refine ⟨by simp [metatable_tag], ?_⟩
      unfold pop_wrapped_error
      rw [ht]
    | foreignUd tg pl =>
      right
      refine ⟨?_, ?_⟩
      · cases tg <;> simp [metatable_tag]
      · unfold pop_wrapped_error
        rw [ht]
    | destructedUd =>
      right
      refine ⟨by simp [metatable_tag], ?_⟩
      unfold pop_wrapped_error
      rw [ht]
    | other n =>
      right
      refine ⟨by simp [metatable_tag], ?_⟩
      unfold pop_wrapped_error
      rw [ht]

/-- Witness for the panic-opacity theorem at a concrete panic envelope. -/
theorem panic_opacity_witness :
    pop_wrapped_error ⟨[LuaValue.wrappedPanicUd (some 7)], true, 10⟩ =
      (none, ⟨[LuaValue.wrappedPanicUd (some 7)], true, 10⟩) ∧
    pop_error ⟨[LuaValue.wrappedPanicUd (some 7)], true, 10⟩ 2 =
      PopErrorResult.panicResumed 7 ⟨[], true, 10⟩ := by
  have h := panic_opacity 7 [] ⟨[LuaValue.wrappedPanicUd (some 7)], true, 10⟩ 2
    rfl (by decide)
  refine ⟨h.1, ?_⟩
  have h2 := h.2.1
  have hst : (⟨[LuaValue.wrappedPanicUd (some 7)], true, 10⟩ : LuaState).settop 0 =
      (⟨[], true, 10⟩ : LuaState) := by
    simp [LuaState.settop]
  rw [hst] at h2
  exact h2

/-- C1: whenever the protected call of safe_pcall or safe_xpcall fails and
the resulting error value is a wrapped panic, the C function re-raises it via
lua_error (never a normal return, hence never the boolean-plus-error pair),
and the message-handler step installed by safe_xpcall returns immediately
with the stack untouched when the in-flight error is a wrapped panic — the
user handler is never invoked (the outcome does not depend on it). -/
theorem protected_calls_reraise_panics :
    (∀ (s : LuaState) (errval : LuaValue), lua_checkstack s 2 = true →
      s.gettop ≠ 0 → is_wrapped_panic errval = true →
      safe_pcall s (PCallOut.err errval) =
        CFunResult.raised { s with stack := [errval] }) ∧
    (∀ (s : LuaState) (errval : LuaValue), lua_checkstack s 2 = true →
      2 ≤ s.gettop → is_wrapped_panic errval = true →
      safe_xpcall s (PCallOut.err errval) =
        CFunResult.raised { s with stack := [errval, LuaValue.other 0] }) ∧
    (∀ (handler handler2 : List LuaValue → List LuaValue) (s : LuaState)
        (v : LuaValue), lua_checkstack s 2 = true →
      s.top? = some v → is_wrapped_panic v = true →
      xpcall_msgh handler s = CFunResult.ret 1 s ∧
      xpcall_msgh handler s = xpcall_msgh handler2 s) := by
  refine ⟨?_, ?_, ?_⟩
  · intro s errval h2 htop hpanic
    unfold safe_pcall
    rw [h2]
    simp only [Bool.true_eq_false, if_false]
    rw [if_neg htop]
    simp only [hpanic, if_true]
  · intro s errval h2 htop hpanic
    unfold safe_xpcall
    rw [h2]
    simp only [Bool.true_eq_false, if_false]
    rw [if_neg (by omega : ¬s.gettop < 2)]
    simp only [hpanic, if_true]
  · intro handler handler2 s v h2 htop hpanic
    have hmsg : xpcall_msgh handler s = CFunResult.ret 1 s := by
      unfold xpcall_msgh
      rw [h2]
      simp only [Bool.true_eq_false, if_false]
      rw [htop]
      simp only [hpanic, if_true]
    have hmsg2 : xpcall_msgh handler2 s = CFunResult.ret 1 s := by
      unfold xpcall_msgh
      rw [h2]
      simp only [Bool.true_eq_false, if_false]
      rw [htop]
      simp only [hpanic, if_true]
    exact ⟨hmsg, hmsg.trans hmsg2.symm⟩

/-- Witness for the panic re-raise theorem of the protected-call variants. -/
theorem protected_calls_reraise_panics_witness :
    safe_pcall ⟨[LuaValue.other 1], true, 10⟩
        (PCallOut.err (LuaValue.wrappedPanicUd (some 3))) =
      CFunResult.raised ⟨[LuaValue.wrappedPanicUd (some 3)], true, 10⟩ ∧
    safe_xpcall ⟨[LuaValue.other 1, LuaValue.other 2], true, 10⟩
        (PCallOut.err (LuaValue.wrappedPanicUd (some 3))) =
      CFunResult.raised
        ⟨[LuaValue.wrappedPanicUd (some 3), LuaValue.other 0], true, 10⟩ ∧
    xpcall_msgh (fun l => l)
        ⟨[LuaValue.wrappedPanicUd (some 3)], true, 10⟩ =
      CFunResult.ret 1 ⟨[LuaValue.wrappedPanicUd (some 3)], true, 10⟩ :=
  ⟨protected_calls_reraise_panics.1 ⟨[LuaValue.other 1], true, 10⟩
      (LuaValue.wrappedPanicUd (some 3)) rfl (by decide) rfl,
   protected_calls_reraise_panics.2.1
      ⟨[LuaValue.other 1, LuaValue.other 2], true, 10⟩
      (LuaValue.wrappedPanicUd (some 3)) rfl (by decide) rfl,
   (protected_calls_reraise_panics.2.2 (fun l => l) (fun l => l)
      ⟨[LuaValue.wrappedPanicUd (some 3)], true, 10⟩
      (LuaValue.wrappedPanicUd (some 3)) rfl rfl rfl).1⟩

/-- C5: after take_userdata moves the payload of a foreign object out and installs
the destructed sentinel metatable (one handle value, the same whatever the
payload was), invoking any capability of the intercepted set on the handle
dispatches to the one shared handler and uniformly yields the wrapped
CallbackDestructed error, independent of the moved-out payload. -/
theorem destructed_sentinel_uniform (s : LuaState) (h2 : 2 ≤ s.maxStack) :
    (∀ (t : LuaState) (tag : Option Nat) (p : Nat) (rest : List LuaValue),
      t.stack = LuaValue.foreignUd tag (some p) :: rest →
      take_userdata t = some (p, LuaValue.destructedUd, { t with stack := rest })) ∧
    metatable_tag LuaValue.destructedUd = some Tag.destructedTag ∧
    (∀ m, m ∈ destructed_metamethods →
      invoke_on_destructed m s =
        some (RCallResult.rcallErr
          ⟨[LuaValue.wrappedErrorUd Error.CallbackDestructed],
            s.gcRunning, s.maxStack⟩)) := by
  refine ⟨?_, rfl, ?_⟩
  · intro t tag p rest ht
    unfold take_userdata
    rw [ht]
  · intro m hm
    have hlook : destructed_metatable m = some destructed_error := by
      unfold destructed_metatable
      rw [if_pos hm]
    unfold invoke_on_destructed
    rw [hlook]
    have hde : destructed_error s =
        RCallResult.rcallErr
          ⟨[LuaValue.wrappedErrorUd Error.CallbackDestructed],
            s.gcRunning, s.maxStack⟩ := by
      rcases s with ⟨st, gc, mx⟩
      have hck : 2 ≤ mx := h2
      cases gc <;>
        simp [destructed_error, rust_callback_error, LuaState.settop,
          lua_checkstack, push_wrapped_error, gc_guard, LuaState.push, hck]
    exact congrArg some hde

/-- Witness for the destructed-sentinel uniformity theorem. -/
theorem destructed_sentinel_uniform_witness :
    take_userdata ⟨[LuaValue.foreignUd (some 4) (some 9)], true, 10⟩ =
      some (9, LuaValue.destructedUd, ⟨[], true, 10⟩) ∧
    invoke_on_destructed "__index" ⟨[], true, 10⟩ =
      some (RCallResult.rcallErr
        ⟨[LuaValue.wrappedErrorUd Error.CallbackDestructed], true, 10⟩) := by
  have h := destructed_sentinel_uniform ⟨[], true, 10⟩ (by decide)
  refine ⟨?_, ?_⟩
  · exact h.1 ⟨[LuaValue.foreignUd (some 4) (some 9)], true, 10⟩ (some 4) 9 [] rfl
  · exact h.2.2 "__index" (by decide)

/-- C8: when a caught native panic must be propagated but the 2-slot
stack check of the trampoline fails after the stack reset, both trampolines abort the
process; and a typed error never reaches an abort in either trampoline. -/
theorem panic_nostack_aborts {α : Type} (s s1 : LuaState) (p : Nat)
    (h2 : lua_checkstack (s1.settop 0) 2 = false) :
    (∀ f : LuaState → FOut α × LuaState, f s = (FOut.panic p, s1) →
      callback_error s f =
        CbResult.abort "not enough stack space to propagate panic" ∧
      rust_callback_error s f =
        RCallResult.abort "not enough stack space to throw rust panic") ∧
    (∀ (f : LuaState → FOut α × LuaState) (e : Error) (s2 : LuaState),
      f s = (FOut.err e, s2) →
      (∀ m, callback_error s f ≠ CbResult.abort m) ∧
      (∀ m, rust_callback_error s f ≠ RCallResult.abort m)) := by
  constructor
  · intro f hf
    constructor
    · simp [callback_error, hf, h2]
    · simp [rust_callback_error, hf, h2]
  · intro f e s2 hf
    constructor
    · intro m
      simp only [callback_error, hf]
      split <;> simp
    · intro m
      cases e <;> simp only [rust_callback_error, hf] <;> first
        | (split <;> simp)
        | simp

/-- Witness for the panic-propagation abort theorem, on a VM whose stack
cannot grow to 2 slots. -/
theorem panic_nostack_aborts_witness :
    callback_error (⟨[], true, 1⟩ : LuaState) sampleFPanic =
      CbResult.abort "not enough stack space to propagate panic" ∧
    rust_callback_error (⟨[], true, 1⟩ : LuaState) sampleFPanic =
      RCallResult.abort "not enough stack space to throw rust panic" ∧
    (∀ m, callback_error (⟨[], true, 1⟩ : LuaState) sampleFErr ≠
      CbResult.abort m) := by
  have h := @panic_nostack_aborts Int ⟨[], true, 1⟩ ⟨[], true, 1⟩ 5
    (by decide)
  have hp := h.1 sampleFPanic rfl
  have he := h.2 sampleFErr (Error.RuntimeError "boom") ⟨[], true, 1⟩ rfl
  exact ⟨hp.1, hp.2, he.1⟩

/-- C10: when a host closure run through rust_callback_error fails with a
typed error other than StackError and the 2-slot check fails after the stack
reset, the trampoline returns the RCALL_STACK_ERR fast-path code over the
emptied stack — the original error appears nowhere in the outcome (it is
silently discarded) and the process does not abort. -/
theorem rust_callback_nonstack_error_dropped {α : Type} (s s1 : LuaState)
    (e : Error) (f : LuaState → FOut α × LuaState)
    (hf : f s = (FOut.err e, s1)) (hne : e ≠ Error.StackError)
    (hck : lua_checkstack (s1.settop 0) 2 = false) :
    rust_callback_error s f = RCallResult.rcallStackErr (s1.settop 0) ∧
    (s1.settop 0).stack = [] ∧
    (∀ m, rust_callback_error s f ≠ RCallResult.abort m) := by
  have hmain : rust_callback_error s f = RCallResult.rcallStackErr (s1.settop 0) := by
    cases e with
    | StackError => exact absurd rfl hne
    | RuntimeError msg => simp [rust_callback_error, hf, hck]
    | SyntaxError msg inc => simp [rust_callback_error, hf, hck]
    | GarbageCollectorError msg => simp [rust_callback_error, hf, hck]
    | CallbackError tb cause => simp [rust_callback_error, hf, hck]
    | CallbackDestructed => simp [rust_callback_error, hf, hck]
  refine ⟨hmain, LuaState.stack_settop_zero s1, ?_⟩
  intro m
  rw [hmain]
  simp

/-- Witness for the discarded-error fast-path theorem, on a VM whose stack
cannot grow to 2 slots. -/
theorem rust_callback_nonstack_error_dropped_witness :
    rust_callback_error (⟨[], true, 1⟩ : LuaState) sampleFErr =
      RCallResult.rcallStackErr ⟨[], true, 1⟩ ∧
    ((⟨[], true, 1⟩ : LuaState).settop 0).stack = [] := by
  have h := rust_callback_nonstack_error_dropped ⟨[], true, 1⟩ ⟨[], true, 1⟩
    (Error.RuntimeError "boom") sampleFErr rfl (by decide) (by decide)
  have hset : ((⟨[], true, 1⟩ : LuaState).settop 0) = (⟨[], true, 1⟩ : LuaState) := by
    decide
  constructor
  · rw [h.1, hset]
  · exact h.2.1

/-- C9: with the failure value on the stack when error_traceback runs, a
typed-error envelope is re-wrapped as CallbackError with the captured
traceback and the original error as cause (the placeholder text when 11
slots are unavailable, and the whole step skipped when even 2 are not); a
wrapped panic passes through unmodified; any other error value is replaced
by a traceback string prefixed with its own textual form. -/
theorem error_traceback_cases (s : LuaState) (v : LuaValue)
    (hs : s.stack = [v]) :
    (lua_checkstack s 2 = false → error_traceback s = some s) ∧
    (∀ e, v = LuaValue.wrappedErrorUd e → lua_checkstack s 2 = true →
      lua_checkstack s 11 = true →
      error_traceback s = some
        ⟨[LuaValue.wrappedErrorUd
            (Error.CallbackError (luaL_traceback_text none) e)],
          s.gcRunning, s.maxStack⟩) ∧
    (∀ e, v = LuaValue.wrappedErrorUd e → lua_checkstack s 2 = true →
      lua_checkstack s 11 = false →
      error_traceback s = some
        ⟨[LuaValue.wrappedErrorUd
            (Error.CallbackError "not enough stack space for traceback" e)],
          s.gcRunning, s.maxStack⟩) ∧
    (∀ p, v = LuaValue.wrappedPanicUd p → lua_checkstack s 2 = true →
      error_traceback s = some s) ∧
    (is_wrapped_error v = false → is_wrapped_panic v = false →
      lua_checkstack s 2 = true → lua_checkstack s 11 = true →
      error_traceback s = some
        ⟨[LuaValue.str (luaL_traceback_text
            (some ((lua_tostring? v).getD "<unprintable lua error>")))],
          s.gcRunning, s.maxStack⟩) := by
  refine ⟨?_, ?_, ?_, ?_, ?_⟩
  · intro h2
    unfold error_traceback
    simp [h2]
  · intro e hv h2 h11
    subst hv
    rcases s with ⟨st, gc, mx⟩
    simp only at hs
    subst hs
    cases gc <;>
      simp [error_traceback, h2, h11, LuaState.at1?, is_wrapped_error,
        is_wrapped_panic, metatable_tag, pop_wrapped_error, push_wrapped_error,
        gc_guard, LuaState.push]
  · intro e hv h2 h11
    subst hv
    rcases s with ⟨st, gc, mx⟩
    simp only at hs
    subst hs
    cases gc <;>
      simp [error_traceback, h2, h11, LuaState.at1?, is_wrapped_error,
        is_wrapped_panic, metatable_tag, pop_wrapped_error, push_wrapped_error,
        gc_guard, LuaState.push]
  · intro p hv h2
    subst hv
    rcases s with ⟨st, gc, mx⟩
    simp only at hs
    subst hs
    simp [error_traceback, h2, LuaState.at1?, is_wrapped_error,
      is_wrapped_panic, metatable_tag]
  · intro hwe hwp h2 h11
    rcases s with ⟨st, gc, mx⟩
    simp only at hs
    subst hs
    cases hmv : lua_tostring? v with
    | none =>
      cases gc <;>
        simp [error_traceback, h2, h11, hwe, hwp, hmv, LuaState.at1?,
          gc_guard, LuaState.push]
    | some msg =>
      cases gc <;>
        simp [error_traceback, h2, h11, hwe, hwp, hmv, LuaState.at1?,
          gc_guard, LuaState.push]

/-- Witness for the error_traceback case analysis at concrete inputs. -/
theorem error_traceback_cases_witness :
    error_traceback
        ⟨[LuaValue.wrappedErrorUd (Error.RuntimeError "boom")], true, 20⟩ =
      some ⟨[LuaValue.wrappedErrorUd
          (Error.CallbackError (luaL_traceback_text none)
            (Error.RuntimeError "boom"))], true, 20⟩ ∧
    error_traceback ⟨[LuaValue.wrappedPanicUd (some 3)], true, 20⟩ =
      some ⟨[LuaValue.wrappedPanicUd (some 3)], true, 20⟩ ∧
    error_traceback ⟨[LuaValue.str "oops"], true, 20⟩ =
      some ⟨[LuaValue.str (luaL_traceback_text (some "oops"))], true, 20⟩ :=
  ⟨(error_traceback_cases
      ⟨[LuaValue.wrappedErrorUd (Error.RuntimeError "boom")], true, 20⟩
      (LuaValue.wrappedErrorUd (Error.RuntimeError "boom")) rfl).2.1
      (Error.RuntimeError "boom") rfl rfl rfl,
   (error_traceback_cases ⟨[LuaValue.wrappedPanicUd (some 3)], true, 20⟩
      (LuaValue.wrappedPanicUd (some 3)) rfl).2.2.2.1 (some 3) rfl rfl,
   (error_traceback_cases ⟨[LuaValue.str "oops"], true, 20⟩
      (LuaValue.str "oops") rfl).2.2.2.2 rfl rfl rfl rfl⟩

/-- C6 counterexample: a host closure failing with StackError invoked through
callback_error — cited by the claim as part of the callback trampoline — is
not signaled through any fast-path return code: the StackError is wrapped
into an envelope and raised through the VM error mechanism like any other
typed error. -/
theorem callback_error_stackerror_wrapped_counterexample :
    callback_error (⟨[], true, 10⟩ : LuaState) sampleFStackErr =
      CbResult.raised ⟨[LuaValue.wrappedErrorUd Error.StackError], true, 10⟩ := by
  rfl

/-- C6 (amended): a host closure invoked through rust_callback_error that
fails with StackError is signaled through the distinct RCALL_STACK_ERR
fast-path code, with the final state of the closure untouched — no envelope is
wrapped or raised and the process does not abort; closures invoked through
callback_error instead wrap a StackError like any other typed error. -/
theorem rust_callback_stackerror_fastpath {α : Type} (s : LuaState)
    (f : LuaState → FOut α × LuaState) (s1 : LuaState)
    (hf : f s = (FOut.err Error.StackError, s1)) :
    rust_callback_error s f = RCallResult.rcallStackErr s1 ∧
    (∀ s2, rust_callback_error s f ≠ RCallResult.rcallErr s2) ∧
    (∀ m, rust_callback_error s f ≠ RCallResult.abort m) := by
  have hmain : rust_callback_error s f = RCallResult.rcallStackErr s1 := by
    simp [rust_callback_error, hf]
  exact ⟨hmain, fun s2 => by rw [hmain]; simp, fun m => by rw [hmain]; simp⟩

/-- Witness for the StackError fast-path theorem at a concrete closure. -/
theorem rust_callback_stackerror_fastpath_witness :
    rust_callback_error (⟨[], true, 10⟩ : LuaState) sampleFStackErr =
      RCallResult.rcallStackErr ⟨[], true, 10⟩ :=
  (rust_callback_stackerror_fastpath ⟨[], true, 10⟩ sampleFStackErr
    ⟨[], true, 10⟩ rfl).1

end Rlua
